import Mathlib

/-!
Shallow embedding of the doStuff browser client (run lifecycle state machine,
feed pagination, engagement sub-controller) and proofs about it.

Conventions of the embedding:
* React `useState` fields become fields of explicit state records; a sequence
  of `setX` calls inside one handler becomes a record update chain.
* `localStorage` becomes the `Storage` record (keys `user_id`,
  `current_run_id`, `last_run_id`); `getItem` returning `null` becomes
  `Option.none`.  JavaScript truthiness of a string (`!s`) is `none` or `""`.
* Network effects are modelled by an `ApiRequest` trace that each handler
  emits, and the responses of the server are passed in as explicit parameters
  (the handlers are deterministic functions of state + responses).
* JavaScript numbers holding timestamps/seconds become `Int` (milliseconds
  for timestamps); `Math.floor` of a division becomes `Int.fdiv`.
-/

namespace DoStuff

/-- Level reference data (ChallengePage.tsx `interface Level`). -/
structure Level where
  id : Nat
  levelNumber : Nat
  secondsLimit : Option Int
  deriving Repr, DecidableEq

/-- Server run state as fetched by the client (ChallengePage.tsx
`interface RunState`).  Timestamps are epoch milliseconds; a `none` models a
JSON `null` field. -/
structure RunState where
  id : String
  userId : String
  finishedAt : Option Int
  pendingLevelId : Option Nat
  pendingStartedAt : Option Int
  pendingTimeLimit : Option Int
  proofPending : Bool
  skipsUsed : Nat
  pendingLevel : Option Level
  deriving Repr, DecidableEq

/-- One entry of the feed (part_005 `interface RunFeedItem`, after the
`?? 0` / `?? false` normalisation applied on load). -/
structure FeedItem where
  runId : String
  likeCount : Nat
  likedByViewer : Bool
  commentCount : Nat
  deriving Repr, DecidableEq

/-- Requests the client issues to the backend, as observable effects. -/
inductive ApiRequest where
  | getLevels
  | createRun (userId : String) (caption : Option String) (isPublic : Bool)
  | getRun (runId : String)
  | finishRun (runId : String)
  | submitStep (runId : String) (completed : Bool) (skippedWhole : Bool)
      (proofUrl : Option String)
  | upload
  | setProofState (runId : String) (proofPending : Bool)
  | deleteRun (runId : String)
  | patchRun (runId : String) (isPublic : Bool)
  | patchUser (userId : String)
  | toggleLike (runId : String) (create : Bool)
  deriving Repr, DecidableEq

/-- Local durable storage (`localStorage`), restricted to the three keys the app uses. -/
structure Storage where
  userId : Option String
  currentRunId : Option String
  lastRunId : Option String
  deriving Repr, DecidableEq

/- ----------------------------------------------------------------
Engagement sub-controller: like toggle (part_005 `handleLike`).
---------------------------------------------------------------- -/

/-- Optimistic phase of part_005 `handleLike` applied to the target item:
`nextLiked = !liked_by_viewer`, `delta = nextLiked ? 1 : -1`, item gets
`liked_by_viewer := nextLiked` and `like_count := Math.max(0, like_count +
delta)`.  Returns the updated item together with the recorded
`(nextLiked, delta)` pair the closure keeps for rollback. -/
def likeOptimistic (it : FeedItem) : FeedItem × Bool × Int :=
  let nextLiked := !it.likedByViewer
  let delta : Int := if nextLiked then 1 else -1
  ({ it with likedByViewer := nextLiked,
             likeCount := (max 0 ((it.likeCount : Int) + delta)).toNat },
   nextLiked, delta)

/-- Failure branch of part_005 `handleLike`: on a failed request the item is
set to `liked_by_viewer := !nextLiked` and
`like_count := Math.max(0, like_count - delta)`, where `like_count` is the
count the item holds at rollback time. -/
def likeRollback (it : FeedItem) (nextLiked : Bool) (delta : Int) : FeedItem :=
  { it with likedByViewer := !nextLiked,
            likeCount := (max 0 ((it.likeCount : Int) - delta)).toNat }

/-- Success branch of part_005 `handleLike`: server-reported authoritative
values win (when the response carries them). -/
def likeReconcile (it : FeedItem) (serverCount : Option Nat)
    (serverLiked : Option Bool) : FeedItem :=
  { it with likeCount := serverCount.getD it.likeCount,
            likedByViewer := serverLiked.getD it.likedByViewer }

/- ----------------------------------------------------------------
Run controller (ChallengePage.tsx, and its variant part_006).
---------------------------------------------------------------- -/

/-- ChallengePage.tsx `const MAX_SKIPS = 1`. -/
def MAX_SKIPS : Nat := 1

/-- Run-controller component state (the `useState` fields of
ChallengePage.tsx that the lifecycle logic reads and writes). -/
structure ControllerState where
  runId : Option String
  challenge : Option Level
  timeLeft : Int
  skipsUsed : Nat
  showUploadStep : Bool
  stagedFile : Option String
  preview : Option String
  loading : Bool
  deriving Repr, DecidableEq

/-- ChallengePage.tsx `computeRemaining(startISO, limitSec)`:
`0` when either argument is JS-falsy (null start, null or `0` limit), else
`limitSec - Math.floor((now - start) / 1000)`.  `Int.fdiv` matches the JS
`Math.floor` of the division. -/
def computeRemaining (now : Int) (startMs : Option Int) (limitSec : Option Int) : Int :=
  match startMs, limitSec with
  | some start, some limit =>
      if limit = 0 then 0
      else limit - Int.fdiv (now - start) 1000
  | _, _ => 0

/-- ChallengePage.tsx `clearProofPreview`: drops the staged file and its
object-URL preview (the `revokeObjectURL` browser effect is not modelled). -/
def clearProofPreview (s : ControllerState) : ControllerState :=
  { s with preview := none, stagedFile := none }

/-- ChallengePage.tsx `finalizeRun`: copies the `runId` of the component into the
`last_run_id` storage key and removes `current_run_id`; a no-op when the
component holds no run id. -/
def finalizeRun (runId : Option String) (store : Storage) : Storage :=
  match runId with
  | none => store
  | some rid => { store with lastRunId := some rid, currentRunId := none }

/-- The pending-challenge derivation shared by `init` and
`loadNextRunState`: prefer the server-embedded `pending_level` when
`pending_level_id` is truthy, else look the id up in the local catalog.
A `pending_level_id` of `0` is JS-falsy and yields no challenge. -/
def deriveChallenge (run : RunState) (levels : List Level) : Option Level :=
  match run.pendingLevelId with
  | none => none
  | some lid =>
      if lid = 0 then none
      else
        match run.pendingLevel with
        | some lvl => some lvl
        | none => levels.find? (fun l => l.id == lid)

/-- ChallengePage.tsx `loadNextRunState(rid)`: re-fetches the run (`run` is
the response of the server), adopts `skips_used`, finalizes when finished, else
derives the next challenge, always clears the staged proof, and either
enters the proof step or restarts the timer with
`remain > 0 ? remain : 1`. -/
def loadNextRunState (rid : String) (run : RunState) (s : ControllerState)
    (store : Storage) (now : Int) (levels : List Level) :
    ControllerState × Storage × List ApiRequest :=
  let s1 := { s with loading := true, skipsUsed := run.skipsUsed }
  if run.finishedAt.isSome then
    let s2 := { clearProofPreview s1 with challenge := none }
    ({ s2 with loading := false }, finalizeRun s2.runId store, [.getRun rid])
  else
    let pending := deriveChallenge run levels
    let s2 := clearProofPreview { s1 with challenge := pending }
    match pending with
    | none => ({ s2 with loading := false }, store, [.getRun rid])
    | some _ =>
        if run.proofPending then
          ({ s2 with showUploadStep := true, timeLeft := 0, loading := false },
           store, [.getRun rid])
        else
          let remain := computeRemaining now run.pendingStartedAt run.pendingTimeLimit
          ({ s2 with showUploadStep := false,
                     timeLeft := if remain > 0 then remain else 1,
                     loading := false },
           store, [.getRun rid])

/-- ChallengePage.tsx `handleTimeout(rid, _lvl, currentSkipsUsed)`: with the
skip budget exhausted it calls the finish endpoint, clears the proof
preview, drops the challenge and finalizes; otherwise it submits a
`skipped_whole` step and reloads run state (`reloaded` is the response of the
server to that reload). -/
def handleTimeout (rid : String) (currentSkipsUsed : Nat) (s : ControllerState)
    (store : Storage) (reloaded : RunState) (now : Int) (levels : List Level) :
    ControllerState × Storage × List ApiRequest :=
  let s0 := { s with loading := true }
  if currentSkipsUsed ≥ MAX_SKIPS then
    let s1 := { clearProofPreview s0 with challenge := none }
    ({ s1 with loading := false }, finalizeRun s1.runId store, [.finishRun rid])
  else
    let r := loadNextRunState rid reloaded s0 store now levels
    (r.1, r.2.1, .submitStep rid false true none :: r.2.2)

/-- ChallengePage.tsx `init`, lines 98–102: resolve or create the anonymous
identity.  `freshId` stands for the `crypto.randomUUID()` the browser would
return if one is needed; the stored value is JS-falsy when the key is absent
or holds the empty string. -/
def getOrCreateIdentity (store : Storage) (freshId : String) : String × Storage :=
  match store.userId with
  | some uid =>
      if uid = "" then (freshId, { store with userId := some freshId })
      else (uid, store)
  | none => (freshId, { store with userId := some freshId })

/-- ChallengePage.tsx `init`, lines 110–123: resolve the current run id.
`localStorage.getItem("current_run_id") ?? ""` is falsy exactly when no
usable id is stored, in which case the controller POSTs `/runs` with the
identity, a null caption and `public: false` (`newRunId` stands for the id
the server returns) and persists it as `current_run_id`. -/
def ensureRun (uid : String) (store : Storage) (newRunId : String) :
    String × Storage × List ApiRequest :=
  let stored := store.currentRunId.getD ""
  if stored = "" then
    (newRunId, { store with currentRunId := some newRunId },
     [.createRun uid none false])
  else (stored, store, [])

/-- ChallengePage.tsx `init`, lines 126–183: the part of initialization that
runs once the state of the current run (`run`) has been fetched.  `reloaded` is
the run state the server would report on the reload performed inside a
timeout transition, should one be executed. -/
def initAfterRun (rid : String) (run : RunState) (s : ControllerState)
    (store : Storage) (now : Int) (levels : List Level) (reloaded : RunState) :
    ControllerState × Storage × List ApiRequest :=
  let s0 := { s with runId := some rid }
  if run.finishedAt.isSome then
    ({ s0 with challenge := none, skipsUsed := run.skipsUsed,
               showUploadStep := false, timeLeft := 0, loading := false },
     store, [.getRun rid])
  else
    let s1 := { s0 with skipsUsed := run.skipsUsed }
    let pending := deriveChallenge run levels
    let s2 := { s1 with challenge := pending }
    match pending with
    | none =>
        ({ s2 with showUploadStep := false, timeLeft := 0, loading := false },
         store, [.getRun rid])
    | some _ =>
        if run.proofPending then
          ({ s2 with showUploadStep := true, timeLeft := 0, loading := false },
           store, [.getRun rid])
        else
          let remaining := computeRemaining now run.pendingStartedAt run.pendingTimeLimit
          if remaining ≤ 0 then
            let r := handleTimeout rid run.skipsUsed s2 store reloaded now levels
            ({ r.1 with loading := false }, r.2.1, .getRun rid :: r.2.2)
          else
            ({ s2 with showUploadStep := false, timeLeft := remaining,
                       loading := false },
             store, [.getRun rid])

/-- ChallengePage.tsx `handleSkipChallenge`: a guard makes it a local no-op
without a run or challenge or when `skipsUsed >= MAX_SKIPS`; otherwise it
submits a `completed=false, skipped_whole=true, proof_url=null` step and
reloads run state. -/
def handleSkipChallenge (s : ControllerState) (store : Storage)
    (reloaded : RunState) (now : Int) (levels : List Level) :
    ControllerState × Storage × List ApiRequest :=
  match s.runId, s.challenge with
  | some rid, some _ =>
      if s.skipsUsed ≥ MAX_SKIPS then (s, store, [])
      else
        let s0 := { s with loading := true }
        let r := loadNextRunState rid reloaded s0 store now levels
        (r.1, r.2.1, .submitStep rid false true none :: r.2.2)
  | _, _ => (s, store, [])

/-- ChallengePage.tsx `handleSubmitWithProof` (with `uploadProof` inlined):
uploads the staged file — `uploadOutcome` is the verdict of the environment on
the `/upload` POST — then submits a `completed=true` step with the returned
url and reloads; when `uploadProof` throws, the catch branch only resets
`loading` and raises the retry alert (the returned `Bool`).  With no staged
file `uploadProof` returns null without a request and the step is submitted
with a null `proof_url`. -/
def handleSubmitWithProof (s : ControllerState) (store : Storage)
    (uploadOutcome : Except Unit String) (reloaded : RunState) (now : Int)
    (levels : List Level) :
    ControllerState × Storage × List ApiRequest × Bool :=
  match s.runId, s.challenge with
  | some rid, some _ =>
      let s0 := { s with loading := true }
      match s.stagedFile with
      | none =>
          let r := loadNextRunState rid reloaded s0 store now levels
          (r.1, r.2.1, .submitStep rid true false none :: r.2.2, false)
      | some _ =>
          match uploadOutcome with
          | .error _ => ({ s0 with loading := false }, store, [.upload], true)
          | .ok url =>
              let r := loadNextRunState rid reloaded s0 store now levels
              (r.1, r.2.1,
               .upload :: .submitStep rid true false (some url) :: r.2.2, false)
  | _, _ => (s, store, [], false)

/- ----------------------------------------------------------------
Feed controller pagination (part_005 `loadMore`, and the earlier
variant FeedPage.tsx `loadMore`).
---------------------------------------------------------------- -/

/-- Feed-controller state (the pagination-relevant `useState` fields). -/
structure FeedState where
  items : List FeedItem
  offset : Nat
  hasMore : Bool
  loadingMore : Bool
  deriving Repr, DecidableEq

/-- One server response to `GET /public-runs`; `ok := false` models a
transport failure or non-2xx status (the `catch` path). -/
structure FeedResponse where
  ok : Bool
  items : List FeedItem
  hasMore : Option Bool
  nextOffset : Option Nat
  deriving Repr, DecidableEq

/-- part_005 `loadMore(count)`: no-op while a load is in flight, `hasMore`
is false, or the viewer identity is unresolved; on failure only the loading
flags reset; on success the response items are deduplicated against the
already-loaded run ids, survivors appended, the offset advanced to the
server-provided `next_offset` (else by the received count), and `hasMore`
cleared when the backend signals no more or zero items arrived. -/
def loadMore (count : Nat) (viewerId : Option String) (st : FeedState)
    (resp : FeedResponse) : FeedState :=
  if st.loadingMore || !st.hasMore then st
  else if viewerId.getD "" = "" then st
  else if !resp.ok then { st with loadingMore := false }
  else
    let seen := st.items.map (fun it => it.runId)
    let deduped := resp.items.filter (fun it => decide (it.runId ∉ seen))
    let received := resp.items.length
    let backendHasMore := resp.hasMore.getD (decide (received = count))
    { items := st.items ++ deduped,
      offset := resp.nextOffset.getD (st.offset + received),
      hasMore := if !backendHasMore || received = 0 then false else st.hasMore,
      loadingMore := false }

/-- FeedPage.tsx `loadMore(count)` (the earlier variant): same guards and
bookkeeping but the response items are appended without deduplication and
the offset always advances by the received count. -/
def loadMoreOld (count : Nat) (st : FeedState) (resp : FeedResponse) : FeedState :=
  if st.loadingMore || !st.hasMore then st
  else if !resp.ok then { st with loadingMore := false }
  else
    let received := resp.items.length
    let backendHasMore := resp.hasMore.getD (decide (received = count))
    { items := st.items ++ resp.items,
      offset := st.offset + received,
      hasMore := if !backendHasMore || received = 0 then false else st.hasMore,
      loadingMore := false }

/- ----------------------------------------------------------------
Summary controller terminal actions (part_003 SummaryPage).
---------------------------------------------------------------- -/

/-- part_003 `deleteRun`: DELETEs the run, then removes both the
`last_run_id` and `current_run_id` storage keys (then navigates away). -/
def deleteRun (runId : Option String) (store : Storage) :
    Storage × List ApiRequest :=
  match runId with
  | none => (store, [])
  | some rid =>
      ({ store with lastRunId := none, currentRunId := none },
       [.deleteRun rid])

/-- part_003 `handlePost`: PATCHes the visibility of the run, POSTs the
idempotent finish endpoint, and navigates to the feed.  It touches no
storage key. -/
def handlePost (runId : Option String) (isPublic : Bool) (store : Storage) :
    Storage × List ApiRequest :=
  match runId with
  | none => (store, [])
  | some rid => (store, [.patchRun rid isPublic, .finishRun rid])

/- ----------------------------------------------------------------
Helper lemmas.
---------------------------------------------------------------- -/

theorem toNat_max_zero (x : Int) : (max 0 x).toNat = x.toNat := by
  rcases le_total 0 x with h | h
  · rw [max_eq_right h]
  · rw [max_eq_left h, Int.toNat_of_nonpos h]
    rfl

/-- Every branch of `loadNextRunState` issues exactly the run re-fetch. -/
theorem loadNextRunState_trace (rid : String) (run : RunState)
    (s : ControllerState) (store : Storage) (now : Int) (levels : List Level) :
    (loadNextRunState rid run s store now levels).2.2 = [ApiRequest.getRun rid] := by
  unfold loadNextRunState
  split
  · rfl
  · cases deriveChallenge run levels
    · rfl
    · dsimp only
      split <;> rfl

/-- After `loadNextRunState`, whenever the resulting state would render the
countdown (a challenge is present and the proof step is not shown), the
displayed time is at least one second. -/
theorem loadNextRunState_render_safe (rid : String) (run : RunState)
    (s : ControllerState) (store : Storage) (now : Int) (levels : List Level)
    (hch : ((loadNextRunState rid run s store now levels).1.challenge).isSome = true)
    (hup : (loadNextRunState rid run s store now levels).1.showUploadStep = false) :
    1 ≤ (loadNextRunState rid run s store now levels).1.timeLeft := by
  cases hf : run.finishedAt with
  | some v => simp [loadNextRunState, hf, clearProofPreview] at hch
  | none =>
    cases hd : deriveChallenge run levels with
    | none => simp [loadNextRunState, hf, hd, clearProofPreview] at hch
    | some lvl =>
      cases hp : run.proofPending with
      | true => simp [loadNextRunState, hf, hd, hp, clearProofPreview] at hup
      | false =>
        simp only [loadNextRunState, hf, hd, hp, clearProofPreview,
          Option.isSome_none, Bool.false_eq_true, if_false]
        split <;> omega

/-- After `handleTimeout`, a rendered countdown is at least one second. -/
theorem handleTimeout_render_safe (rid : String) (cs : Nat)
    (s : ControllerState) (store : Storage) (reloaded : RunState) (now : Int)
    (levels : List Level)
    (hch : ((handleTimeout rid cs s store reloaded now levels).1.challenge).isSome = true)
    (hup : (handleTimeout rid cs s store reloaded now levels).1.showUploadStep = false) :
    1 ≤ (handleTimeout rid cs s store reloaded now levels).1.timeLeft := by
  by_cases hb : cs ≥ MAX_SKIPS
  · simp [handleTimeout, hb, clearProofPreview] at hch
  · simp only [handleTimeout, if_neg hb] at hch hup ⊢
    exact loadNextRunState_render_safe rid reloaded _ store now levels hch hup

/-- Sample reference data used by the concrete witnesses below. -/
def sampleLevel : Level := ⟨1, 1, some 60⟩

def sampleRun : RunState :=
  ⟨"r", "u", none, some 1, some 0, some 60, false, 0, some sampleLevel⟩

def sampleState : ControllerState :=
  ⟨some "r", some sampleLevel, 60, 0, false, none, none, false⟩

def sampleStore : Storage := ⟨some "u", some "r", none⟩

/- ----------------------------------------------------------------
Claim C2 — like-toggle rollback.
---------------------------------------------------------------- -/

/-- Claim C2 (counterexample): the rollback does not always restore the
pre-toggle values.  First conjunct: unliking an item that shows
`liked_by_viewer = true` with `like_count = 0` clamps the optimistic delta
at zero, but the rollback still adds the full delta back, landing on
`like_count = 1` instead of `0`.  Second conjunct: with a second toggle
issued before the first failure resolved, rolling back both failed toggles
in order leaves `liked_by_viewer` flipped relative to its original value. -/
theorem handleLike_rollback_cex :
    (likeRollback (likeOptimistic ⟨"r1", 0, true, 0⟩).1
        (likeOptimistic ⟨"r1", 0, true, 0⟩).2.1
        (likeOptimistic ⟨"r1", 0, true, 0⟩).2.2 ≠ (⟨"r1", 0, true, 0⟩ : FeedItem)) ∧
    (likeRollback
        (likeRollback
          (likeOptimistic (likeOptimistic ⟨"r1", 1, false, 0⟩).1).1
          (likeOptimistic ⟨"r1", 1, false, 0⟩).2.1
          (likeOptimistic ⟨"r1", 1, false, 0⟩).2.2)
        (likeOptimistic (likeOptimistic ⟨"r1", 1, false, 0⟩).1).2.1
        (likeOptimistic (likeOptimistic ⟨"r1", 1, false, 0⟩).1).2.2
      ≠ (⟨"r1", 1, false, 0⟩ : FeedItem)) := by
  constructor <;> decide

/-- Claim C2 (amended): a failed like toggle rolls back exactly the
recorded optimistic delta, so it restores `liked_by_viewer` and
`like_count` to exactly their pre-toggle values whenever the pre-toggle
state was not the clamped corner `liked_by_viewer = true ∧ like_count = 0`;
in that corner the rollback yields `like_count = 1`. -/
theorem handleLike_rollback_exact (it : FeedItem)
    (h : it.likedByViewer = false ∨ 0 < it.likeCount) :
    likeRollback (likeOptimistic it).1 (likeOptimistic it).2.1
      (likeOptimistic it).2.2 = it := by
  obtain ⟨rid, c, liked, cc⟩ := it
  cases liked <;> simp_all [likeOptimistic, likeRollback, toNat_max_zero]
  omega

/-- Claim C2 (witness): the amended rollback theorem at the concrete item
`likeCount = 2, likedByViewer = true`. -/
theorem handleLike_rollback_exact_witness :
    likeRollback (likeOptimistic ⟨"w", 2, true, 0⟩).1
      (likeOptimistic ⟨"w", 2, true, 0⟩).2.1
      (likeOptimistic ⟨"w", 2, true, 0⟩).2.2 = (⟨"w", 2, true, 0⟩ : FeedItem) :=
  handleLike_rollback_exact ⟨"w", 2, true, 0⟩ (Or.inr (by decide))

/- ----------------------------------------------------------------
Claim C7 — storage keys on terminal actions.
---------------------------------------------------------------- -/

/-- Claim C7 (counterexample): posting is a terminal action that does NOT
clear the storage keys: after `handlePost` on a storage holding
`last_run_id = "r1"`, the key is still set (in fact the whole storage is
untouched). -/
theorem handlePost_keeps_storage_cex :
    (handlePost (some "r1") true ⟨some "u", none, some "r1"⟩).1.lastRunId
      = some "r1" := by
  rfl

/-- Claim C7 (amended): `deleteRun` clears `current_run_id` and
`last_run_id` together, but `handlePost` leaves local storage unchanged
(it only patches visibility and calls the idempotent finish endpoint), so
`last_run_id` survives a post. -/
theorem terminal_actions_storage (rid : String) (store : Storage)
    (isPublic : Bool) (r : Option String) :
    ((deleteRun (some rid) store).1.currentRunId = none ∧
     (deleteRun (some rid) store).1.lastRunId = none) ∧
    (handlePost r isPublic store).1 = store := by
  refine ⟨⟨rfl, rfl⟩, ?_⟩
  cases r <;> rfl

/- ----------------------------------------------------------------
Claim C1 — timeout transition and the skip budget.
---------------------------------------------------------------- -/

/-- Claim C1: when the countdown reaches zero, `handleTimeout` checks the
skip budget: with `skipsUsed >= MAX_SKIPS` it issues exactly the finish
call (no further step is submitted), and otherwise it submits a step with
`completed=false, skipped_whole=true, proof_url=null` and then reloads run
state from the server. -/
theorem handleTimeout_budget (rid : String) (cs : Nat) (s : ControllerState)
    (store : Storage) (reloaded : RunState) (now : Int) (levels : List Level) :
    (MAX_SKIPS ≤ cs →
      (handleTimeout rid cs s store reloaded now levels).2.2 =
        [ApiRequest.finishRun rid]) ∧
    (cs < MAX_SKIPS →
      (handleTimeout rid cs s store reloaded now levels).2.2 =
        [ApiRequest.submitStep rid false true none, ApiRequest.getRun rid]) := by
  constructor
  · intro h
    simp [handleTimeout, h]
  · intro h
    have hb : ¬ cs ≥ MAX_SKIPS := by omega
    simp [handleTimeout, hb, loadNextRunState_trace]

/-- Claim C1 (witness): both budget branches of the timeout transition at
concrete inputs. -/
theorem handleTimeout_budget_witness :
    (handleTimeout "r" 1 sampleState sampleStore sampleRun 0 []).2.2 =
      [ApiRequest.finishRun "r"] ∧
    (handleTimeout "r" 0 sampleState sampleStore sampleRun 0 []).2.2 =
      [ApiRequest.submitStep "r" false true none, ApiRequest.getRun "r"] :=
  ⟨(handleTimeout_budget "r" 1 sampleState sampleStore sampleRun 0 []).1 (by decide),
   (handleTimeout_budget "r" 0 sampleState sampleStore sampleRun 0 []).2 (by decide)⟩

/- ----------------------------------------------------------------
Claim C3 — timeout recovery at initialization.
---------------------------------------------------------------- -/

/-- Claim C3: at initialization, for a non-finished run with a pending
level and `proof_pending` false whose recomputed remaining time is `<= 0`,
the controller executes the timeout transition (the finish call when the
budget is spent, else the skipped-whole step plus reload) before rendering
an active timer, and the resulting state never renders a non-positive
countdown. -/
theorem init_timeout_recovery (rid : String) (run : RunState)
    (s : ControllerState) (store : Storage) (now : Int) (levels : List Level)
    (reloaded : RunState)
    (hfin : run.finishedAt = none)
    (hpend : (deriveChallenge run levels).isSome = true)
    (hproof : run.proofPending = false)
    (hrem : computeRemaining now run.pendingStartedAt run.pendingTimeLimit ≤ 0) :
    (initAfterRun rid run s store now levels reloaded).2.2 =
      ApiRequest.getRun rid ::
        (if MAX_SKIPS ≤ run.skipsUsed then [ApiRequest.finishRun rid]
         else [ApiRequest.submitStep rid false true none, ApiRequest.getRun rid]) ∧
    (((initAfterRun rid run s store now levels reloaded).1.challenge).isSome = true →
      (initAfterRun rid run s store now levels reloaded).1.showUploadStep = false →
      1 ≤ (initAfterRun rid run s store now levels reloaded).1.timeLeft) := by
  obtain ⟨lvl, hd⟩ := Option.isSome_iff_exists.mp hpend
  constructor
  · by_cases hb : MAX_SKIPS ≤ run.skipsUsed
    · simp [initAfterRun, hfin, hd, hproof, hrem, handleTimeout, hb]
    · simp [initAfterRun, hfin, hd, hproof, hrem, handleTimeout, hb,
        loadNextRunState_trace]
  · intro hch hup
    simp only [initAfterRun, hfin, hd, hproof, hrem, Option.isSome_none,
      Bool.false_eq_true, if_false, if_true] at hch hup ⊢
    exact handleTimeout_render_safe rid run.skipsUsed _ store reloaded now
      levels hch hup

/-- Claim C3 (witness): a run whose 60-second level started 70 seconds ago
(remaining `= -10`) triggers the timeout transition at load, and the
resulting state renders no non-positive countdown. -/
theorem init_timeout_recovery_witness :
    (initAfterRun "r" sampleRun sampleState sampleStore 70000 [] sampleRun).2.2 =
      ApiRequest.getRun "r" ::
        (if MAX_SKIPS ≤ sampleRun.skipsUsed then [ApiRequest.finishRun "r"]
         else [ApiRequest.submitStep "r" false true none, ApiRequest.getRun "r"]) ∧
    (((initAfterRun "r" sampleRun sampleState sampleStore 70000 [] sampleRun).1.challenge).isSome = true →
      (initAfterRun "r" sampleRun sampleState sampleStore 70000 [] sampleRun).1.showUploadStep = false →
      1 ≤ (initAfterRun "r" sampleRun sampleState sampleStore 70000 [] sampleRun).1.timeLeft) :=
  init_timeout_recovery "r" sampleRun sampleState sampleStore 70000 [] sampleRun
    rfl (by decide) rfl (by decide)

/- ----------------------------------------------------------------
Claim C10 — load-next-state clamps the timer to 1.
---------------------------------------------------------------- -/

/-- Claim C10: a `loadNextRunState` transition that lands on a timer step
(non-finished run, pending level, `proof_pending` false) always displays at
least one second; when the recomputed remaining time is `<= 0` it clamps the
timer to exactly `1` and — unlike initialization — issues no timeout
transition (the trace is just the run re-fetch). -/
theorem loadNextRunState_clamps (rid : String) (run : RunState)
    (s : ControllerState) (store : Storage) (now : Int) (levels : List Level)
    (hfin : run.finishedAt = none)
    (hpend : (deriveChallenge run levels).isSome = true)
    (hproof : run.proofPending = false) :
    1 ≤ (loadNextRunState rid run s store now levels).1.timeLeft ∧
    (computeRemaining now run.pendingStartedAt run.pendingTimeLimit ≤ 0 →
      (loadNextRunState rid run s store now levels).1.timeLeft = 1) ∧
    (loadNextRunState rid run s store now levels).1.showUploadStep = false ∧
    (loadNextRunState rid run s store now levels).2.2 = [ApiRequest.getRun rid] := by
  obtain ⟨lvl, hd⟩ := Option.isSome_iff_exists.mp hpend
  simp only [loadNextRunState, hfin, hd, hproof, Option.isSome_none,
    Bool.false_eq_true, if_false, clearProofPreview]
  refine ⟨?_, ?_, by trivial, by trivial⟩
  · split <;> omega
  · intro h
    rw [if_neg (by omega)]

/-- Claim C10 (witness): reloading a run whose 60-second level started 70
seconds ago leaves a 1-second timer and no timeout requests. -/
theorem loadNextRunState_clamps_witness :
    1 ≤ (loadNextRunState "r" sampleRun sampleState sampleStore 70000 []).1.timeLeft ∧
    (computeRemaining 70000 sampleRun.pendingStartedAt sampleRun.pendingTimeLimit ≤ 0 →
      (loadNextRunState "r" sampleRun sampleState sampleStore 70000 []).1.timeLeft = 1) ∧
    (loadNextRunState "r" sampleRun sampleState sampleStore 70000 []).1.showUploadStep = false ∧
    (loadNextRunState "r" sampleRun sampleState sampleStore 70000 []).2.2 =
      [ApiRequest.getRun "r"] :=
  loadNextRunState_clamps "r" sampleRun sampleState sampleStore 70000 []
    rfl (by decide) rfl

/- ----------------------------------------------------------------
Claim C5 — failed proof upload aborts the submit transition.
---------------------------------------------------------------- -/

/-- Claim C5: when the media upload fails during submit-with-proof, the
transition aborts: the only request issued is the upload attempt (no step is
submitted), the loading flag ends false, the retry alert fires, storage is
untouched, and the state is otherwise unchanged — in particular the staged
file and preview stay selected. -/
theorem handleSubmitWithProof_upload_failure (s : ControllerState)
    (store : Storage) (reloaded : RunState) (now : Int) (levels : List Level)
    (hrun : s.runId.isSome = true) (hchal : s.challenge.isSome = true)
    (hfile : s.stagedFile.isSome = true) :
    handleSubmitWithProof s store (Except.error ()) reloaded now levels =
      ({ s with loading := false }, store, [ApiRequest.upload], true) := by
  obtain ⟨rid, hr⟩ := Option.isSome_iff_exists.mp hrun
  obtain ⟨lvl, hc⟩ := Option.isSome_iff_exists.mp hchal
  obtain ⟨f, hf⟩ := Option.isSome_iff_exists.mp hfile
  simp [handleSubmitWithProof, hr, hc, hf]

/-- Claim C5 (witness): the aborted submit transition at a concrete
proof-step state with a staged file. -/
theorem handleSubmitWithProof_upload_failure_witness :
    handleSubmitWithProof
        ⟨some "r", some sampleLevel, 0, 0, true, some "f", some "p", false⟩
        sampleStore (Except.error ()) sampleRun 0 [] =
      ({ runId := some "r", challenge := some sampleLevel, timeLeft := 0,
         skipsUsed := 0, showUploadStep := true, stagedFile := some "f",
         preview := some "p", loading := false },
       sampleStore, [ApiRequest.upload], true) :=
  handleSubmitWithProof_upload_failure
    ⟨some "r", some sampleLevel, 0, 0, true, some "f", some "p", false⟩
    sampleStore sampleRun 0 [] rfl rfl rfl

/- ----------------------------------------------------------------
Claim C6 — manual skip and the budget guard.
---------------------------------------------------------------- -/

/-- Claim C6: in the active-timer state (run id and challenge present),
`handleSkipChallenge` with `skipsUsed < MAX_SKIPS` submits a step with
`completed=false, skipped_whole=true, proof_url=null` and reloads; with
`skipsUsed >= MAX_SKIPS` it is a local no-op that changes nothing and sends
no request. -/
theorem handleSkipChallenge_budget (s : ControllerState) (store : Storage)
    (reloaded : RunState) (now : Int) (levels : List Level) (rid : String)
    (lvl : Level) (hr : s.runId = some rid) (hc : s.challenge = some lvl) :
    (s.skipsUsed < MAX_SKIPS →
      (handleSkipChallenge s store reloaded now levels).2.2 =
        [ApiRequest.submitStep rid false true none, ApiRequest.getRun rid]) ∧
    (MAX_SKIPS ≤ s.skipsUsed →
      handleSkipChallenge s store reloaded now levels = (s, store, [])) := by
  constructor
  · intro h
    have hb : ¬ s.skipsUsed ≥ MAX_SKIPS := by omega
    simp [handleSkipChallenge, hr, hc, hb, loadNextRunState_trace]
  · intro h
    simp [handleSkipChallenge, hr, hc, h]

/-- Claim C6 (witness): both budget branches of the manual skip at concrete
inputs. -/
theorem handleSkipChallenge_budget_witness :
    (handleSkipChallenge sampleState sampleStore sampleRun 0 []).2.2 =
      [ApiRequest.submitStep "r" false true none, ApiRequest.getRun "r"] ∧
    handleSkipChallenge { sampleState with skipsUsed := 1 } sampleStore
        sampleRun 0 [] =
      ({ sampleState with skipsUsed := 1 }, sampleStore, []) :=
  ⟨(handleSkipChallenge_budget sampleState sampleStore sampleRun 0 [] "r"
      sampleLevel rfl rfl).1 (by decide),
   (handleSkipChallenge_budget { sampleState with skipsUsed := 1 } sampleStore
      sampleRun 0 [] "r" sampleLevel rfl rfl).2 (by decide)⟩

/- ----------------------------------------------------------------
Claim C4 — feed pagination and duplicate run ids.
---------------------------------------------------------------- -/

/-- Concrete feed items for the pagination theorems. -/
def itemA : FeedItem := ⟨"a", 0, false, 0⟩

def itemB : FeedItem := ⟨"b", 0, false, 0⟩

/-- Claim C4 (counterexample): the earlier Feed Controller variant
(FeedPage.tsx `loadMore`) appends responses without deduplication, so two
overlapping pages that both contain run id `"a"` leave `items` with a
duplicate run id. -/
theorem feedPage_duplicates_cex :
    ¬ (((loadMoreOld 3
          (loadMoreOld 3 ⟨[], 0, true, false⟩ ⟨true, [itemA], some true, none⟩)
          ⟨true, [itemA], some true, none⟩).items.map
        (fun it => it.runId)).Nodup) := by
  decide

/-- Claim C4 (amended): in the part_005 Feed Controller variant, `loadMore`
deduplicates each response against the already-loaded run ids, so if the
loaded items and the response each carry pairwise-distinct run ids, the
resulting `items` list still has no duplicate run id — even when the
response overlaps what is loaded.  (The earlier FeedPage.tsx variant
appends blindly and does not enjoy this invariant.) -/
theorem loadMore_no_duplicates (count : Nat) (viewerId : Option String)
    (st : FeedState) (resp : FeedResponse)
    (hst : (st.items.map (fun it => it.runId)).Nodup)
    (hresp : (resp.items.map (fun it => it.runId)).Nodup) :
    ((loadMore count viewerId st resp).items.map (fun it => it.runId)).Nodup := by
  unfold loadMore
  split
  · exact hst
  · split
    · exact hst
    · split
      · exact hst
      · simp only [List.map_append, List.nodup_append]
        refine ⟨hst, ?_, ?_⟩
        · exact hresp.sublist ((List.filter_sublist _).map _)
        · intro a ha hb
          obtain ⟨it, hit, rfl⟩ := List.mem_map.mp hb
          obtain ⟨hmem, hp⟩ := List.mem_filter.mp hit
          exact absurd ha (of_decide_eq_true hp)

/-- Claim C4 (witness): a response overlapping the loaded page (`"a"`
again, plus fresh `"b"`) still yields duplicate-free items. -/
theorem loadMore_no_duplicates_witness :
    ((loadMore 3 (some "v") ⟨[itemA], 1, true, false⟩
        ⟨true, [itemA, itemB], some true, none⟩).items.map
      (fun it => it.runId)).Nodup :=
  loadMore_no_duplicates 3 (some "v") ⟨[itemA], 1, true, false⟩
    ⟨true, [itemA, itemB], some true, none⟩ (by decide) (by decide)

/- ----------------------------------------------------------------
Claim C8 — creating a run when none is resolved.
---------------------------------------------------------------- -/

/-- Claim C8: when no usable current-run id is stored (`current_run_id`
absent, or empty and hence JS-falsy), initialization POSTs `/runs` with the
anonymous identity, a null caption and `public=false`, and persists the
returned id as `current_run_id`. -/
theorem ensureRun_creates (uid : String) (store : Storage) (newRunId : String)
    (h : store.currentRunId = none ∨ store.currentRunId = some "") :
    ensureRun uid store newRunId =
      (newRunId, { store with currentRunId := some newRunId },
       [ApiRequest.createRun uid none false]) := by
  rcases h with h | h <;> simp [ensureRun, h]

/-- Claim C8 (witness): run creation from a storage with no current run. -/
theorem ensureRun_creates_witness :
    ensureRun "u" ⟨some "u", none, none⟩ "n" =
      ("n", ⟨some "u", some "n", none⟩, [ApiRequest.createRun "u" none false]) :=
  ensureRun_creates "u" ⟨some "u", none, none⟩ "n" (Or.inl rfl)

/- ----------------------------------------------------------------
Claim C9 — idempotent, stable anonymous identity.
---------------------------------------------------------------- -/

/-- Claim C9: `getOrCreateIdentity` is idempotent and stable — provided the
freshly generated identifier is non-empty (as `crypto.randomUUID` always
is), a second call over the resulting storage returns the same identifier
and changes nothing, and the returned identifier is exactly the persisted
one (so it also survives reloads over the same storage). -/
theorem getOrCreateIdentity_stable (store : Storage) (f1 f2 : String)
    (h : f1 ≠ "") :
    getOrCreateIdentity (getOrCreateIdentity store f1).2 f2 =
      getOrCreateIdentity store f1 ∧
    (getOrCreateIdentity store f1).2.userId =
      some (getOrCreateIdentity store f1).1 := by
  cases hs : store.userId with
  | none => simp [getOrCreateIdentity, hs, h]
  | some uid =>
    by_cases he : uid = ""
    · simp [getOrCreateIdentity, hs, he, h]
    · simp [getOrCreateIdentity, hs, he]

/-- Claim C9 (witness): two successive calls over an initially empty
storage return the same identifier and persist it once. -/
theorem getOrCreateIdentity_stable_witness :
    getOrCreateIdentity (getOrCreateIdentity ⟨none, none, none⟩ "id1").2 "id2" =
      getOrCreateIdentity ⟨none, none, none⟩ "id1" ∧
    (getOrCreateIdentity ⟨none, none, none⟩ "id1").2.userId =
      some (getOrCreateIdentity ⟨none, none, none⟩ "id1").1 :=
  getOrCreateIdentity_stable ⟨none, none, none⟩ "id1" "id2" (by decide)

end DoStuff
